import Mathlib

/-!
Shallow embedding of the WhatsApp-to-Salesforce bot server (`src/server.js`).

The stateful parts of the program (the three process-wide `Map`s
`conversations`, `messageHistory`, `handoffMode`) are modelled by explicit
state passing on a record of finite maps represented as functions
`String → Option _`.  The two I/O collaborators (the WhatsApp send call and
the Salesforce lead creation) are modelled by oracles in an environment
record: `sendOk to body` tells whether `sendWhatsAppMessage to body` succeeds
or throws, and `crm r` gives the result of `sfConnection.sobject('Lead').create r`
(`some id` on success, `none` on failure or exception).  Every externally
visible action is recorded in an event trace.  Timestamps are omitted: no
property below mentions them.
-/

namespace WB

/-- The conversation stages (`STAGES` object in the source). -/
inductive Stage
  | INITIAL
  | ASKED_FIRST_NAME
  | ASKED_LAST_NAME
  | ASKED_EMAIL
  | ASKED_PHONE
  | ASKED_REQUIREMENT
  | COMPLETED
  | HANDOFF
deriving DecidableEq

/-- The `data` object accumulated on a conversation; absent JS fields are `none`. -/
structure ConvData where
  firstName : Option String
  lastName : Option String
  email : Option String
  phone : Option String
  requirement : Option String
  whatsappNumber : Option String
deriving DecidableEq

/-- The fresh `{}` data object. -/
def emptyData : ConvData := ⟨none, none, none, none, none, none⟩

/-- A per-sender conversation record `{ stage, data }`. -/
structure Conversation where
  stage : Stage
  data : ConvData
deriving DecidableEq

/-- A history record `{ sender, message }`; `sender` is the role string
(`"customer"`, `"bot"` or `"sales"`). -/
structure MessageRecord where
  sender : String
  message : String
deriving DecidableEq

/-- The record passed to the Salesforce `Lead.create` call
(`createLeadInSalesforce`). -/
structure LeadRecord where
  FirstName : Option String
  LastName : Option String
  Company : String
  Email : Option String
  Phone : Option String
  Description : Option String
  LeadSource : String
  Status : String
  WhatsApp_Number__c : Option String
  WhatsApp_Message__c : Option String
  WhatsApp_Conversation_ID__c : Option String
deriving DecidableEq

/-- Externally visible events of one operation, in order. -/
inductive Ev
  | sent (dest : String) (body : String) (ok : Bool)
  | createLead (r : LeadRecord) (result : Option String)
deriving DecidableEq

/-- Oracles for the two collaborators. -/
structure Env where
  sendOk : String → String → Bool
  crm : LeadRecord → Option String

/-- The process-wide mutable state: the three `Map`s of the source. -/
structure St where
  conversations : String → Option Conversation
  messageHistory : String → Option (List MessageRecord)
  handoffMode : String → Option Bool

/-- `Map.set`. -/
def mapSet {V : Type} (m : String → Option V) (k : String) (v : V) :
    String → Option V :=
  fun k2 => if k2 = k then some v else m k2

/-- `Map.delete`. -/
def mapDel {V : Type} (m : String → Option V) (k : String) :
    String → Option V :=
  fun k2 => if k2 = k then none else m k2

/-- The empty state (all three maps empty). -/
def emptySt : St := ⟨fun _ => none, fun _ => none, fun _ => none⟩

/-- `phoneNumber.replace(/\D/g, '')`: keep only the ASCII digits. -/
def cleanPhone (s : String) : String := String.mk (s.data.filter fun c => c.isDigit)

/-- JS `string.includes(c)` for a single character (kernel-reducible form). -/
def jsIncludes (s : String) (c : Char) : Bool := s.data.contains c

/-- JS `string.toLowerCase()` (kernel-reducible form, ASCII semantics). -/
def jsToLower (s : String) : String := String.mk (s.data.map Char.toLower)

/-- JS `string.trim()` (kernel-reducible form). -/
def jsTrim (s : String) : String :=
  String.mk (((s.data.dropWhile Char.isWhitespace).reverse.dropWhile Char.isWhitespace).reverse)

/-- JS template-literal rendering of a possibly-undefined string field. -/
def jsStr (o : Option String) : String := o.getD "undefined"

/-- `storeMessage(phoneNumber, sender, message)`. -/
def storeMessage (st : St) (phoneNumber sender message : String) : St :=
  let clean := cleanPhone phoneNumber
  let hist := (st.messageHistory clean).getD []
  { st with messageHistory := mapSet st.messageHistory clean (hist ++ [⟨sender, message⟩]) }

/-- `isHandoffMode(phoneNumber)`: `handoffMode.get(clean) === true`. -/
def isHandoffMode (st : St) (phoneNumber : String) : Bool :=
  match st.handoffMode (cleanPhone phoneNumber) with
  | some true => true
  | _ => false

/-- `setHandoffMode(phoneNumber, mode)`. -/
def setHandoffMode (st : St) (phoneNumber : String) (mode : Bool) : St :=
  { st with handoffMode := mapSet st.handoffMode (cleanPhone phoneNumber) mode }

/-- The lead record built by `createLeadInSalesforce` from `conversation.data`. -/
def leadRecordOf (d : ConvData) : LeadRecord :=
  { FirstName := d.firstName
    LastName := d.lastName
    Company := jsStr d.firstName ++ " " ++ jsStr d.lastName
    Email := d.email
    Phone := d.phone
    Description := d.requirement
    LeadSource := "WhatsApp"
    Status := "Open - Not Contacted"
    WhatsApp_Number__c := d.whatsappNumber
    WhatsApp_Message__c := d.requirement
    WhatsApp_Conversation_ID__c := d.whatsappNumber }

/-- Reply of the `INITIAL` stage. -/
def greetingReply : String :=
  "👋 Hello! Welcome to our business!\n\nI\x27d be happy to help you. Let me collect some information.\n\nWhat is your *first name*?"

/-- Reply of the `ASKED_FIRST_NAME` stage. -/
def askLastNameReply (firstName : String) : String :=
  "Nice to meet you, " ++ firstName ++ "! 😊\n\nWhat is your *last name*?"

/-- Reply of the `ASKED_LAST_NAME` stage. -/
def askEmailReply : String := "Great! What is your *email address*?"

/-- Rejection reply of the `ASKED_EMAIL` stage. -/
def emailErrorReply : String :=
  "⚠️ That doesn\x27t look like a valid email address. Please provide a valid email (e.g., name@example.com)"

/-- Acceptance reply of the `ASKED_EMAIL` stage. -/
def askPhoneReply : String :=
  "Perfect! What is your *phone number*?\n\n(You can share the same number you\x27re messaging from)"

/-- Reply of the `ASKED_PHONE` stage. -/
def askRequirementReply : String :=
  "Almost done! 📝\n\nPlease describe your *requirement* or tell us what you\x27re looking for."

/-- Success reply of the `ASKED_REQUIREMENT` stage. -/
def leadSuccessReply (firstName : Option String) (leadId : String) : String :=
  "✅ Thank you, " ++ jsStr firstName ++
    "!\n\nWe\x27ve received your inquiry. Our sales team will contact you shortly on WhatsApp.\n\n📋 Your reference number: " ++
    leadId

/-- Failure reply of the `ASKED_REQUIREMENT` stage. -/
def leadFailureReply : String :=
  "❌ Sorry, there was an error saving your information. Please try again or contact us directly."

/-- Reply of the `COMPLETED` stage to anything but a restart keyword. -/
def alreadySubmittedReply : String :=
  "Your inquiry has already been submitted. Our team will reach out soon!\n\nIf you have a new inquiry, type \x27restart\x27."

/-- Apology sent from the `catch` block of `handleConversation`. -/
def genericErrorReply : String := "Sorry, something went wrong. Please try again."

/-- Outcome of the `switch (conversation.stage)` block of `handleConversation`:
either a decided reply with the updated conversation (and the CRM events
performed inside the `ASKED_REQUIREMENT` case), or the `COMPLETED` restart
path (`conversations.delete` + recursive call with `'Hi'`), or the `HANDOFF`
early return. -/
inductive StepOut
  | reply (conv : Conversation) (text : String) (evs : List Ev)
  | restart
  | silent
deriving DecidableEq

/-- The `switch (conversation.stage)` block of `handleConversation`,
transcribed case by case. -/
def switchStep (crm : LeadRecord → Option String) (userPhone userMessage : String)
    (conversation : Conversation) : StepOut :=
  match conversation.stage with
  | Stage.INITIAL =>
      StepOut.reply ⟨Stage.ASKED_FIRST_NAME, conversation.data⟩ greetingReply []
  | Stage.ASKED_FIRST_NAME =>
      StepOut.reply ⟨Stage.ASKED_LAST_NAME, { conversation.data with firstName := some userMessage }⟩
        (askLastNameReply userMessage) []
  | Stage.ASKED_LAST_NAME =>
      StepOut.reply ⟨Stage.ASKED_EMAIL, { conversation.data with lastName := some userMessage }⟩
        askEmailReply []
  | Stage.ASKED_EMAIL =>
      if !(jsIncludes userMessage '@') || !(jsIncludes userMessage '.') then
        StepOut.reply ⟨Stage.ASKED_EMAIL, conversation.data⟩ emailErrorReply []
      else
        StepOut.reply ⟨Stage.ASKED_PHONE, { conversation.data with email := some userMessage }⟩
          askPhoneReply []
  | Stage.ASKED_PHONE =>
      StepOut.reply ⟨Stage.ASKED_REQUIREMENT, { conversation.data with phone := some userMessage }⟩
        askRequirementReply []
  | Stage.ASKED_REQUIREMENT =>
      let d := { conversation.data with requirement := some userMessage, whatsappNumber := some userPhone }
      let r := leadRecordOf d
      match crm r with
      | some leadId =>
          StepOut.reply ⟨Stage.COMPLETED, d⟩ (leadSuccessReply d.firstName leadId)
            [Ev.createLead r (some leadId)]
      | none =>
          StepOut.reply ⟨Stage.ASKED_REQUIREMENT, d⟩ leadFailureReply [Ev.createLead r none]
  | Stage.COMPLETED =>
      if jsToLower userMessage = "restart" ∨ jsToLower userMessage = "start" then
        StepOut.restart
      else
        StepOut.reply ⟨Stage.COMPLETED, conversation.data⟩ alreadySubmittedReply []
  | Stage.HANDOFF => StepOut.silent

/-- `handleConversation(userPhone, userMessage)` with explicit recursion fuel
for the `COMPLETED`-restart recursive call.  After the switch decides a reply,
the code runs `conversations.set(userPhone, conversation)` (note: keyed by the
RAW `userPhone`), then `await sendWhatsAppMessage(userPhone, reply)`, then
`storeMessage(userPhone, 'bot', reply)`; a throwing send jumps to the `catch`
block, which only attempts the apology send, so the bot record is not stored. -/
def handleConvAux : Nat → Env → St → String → String → St × List Ev
  | 0, _, st, _, _ => (st, [])
  | Nat.succ fuel, env, st, userPhone, userMessage =>
    let conversation := (st.conversations userPhone).getD ⟨Stage.INITIAL, emptyData⟩
    match switchStep env.crm userPhone userMessage conversation with
    | StepOut.silent => (st, [])
    | StepOut.restart =>
        handleConvAux fuel env { st with conversations := mapDel st.conversations userPhone }
          userPhone "Hi"
    | StepOut.reply conv text evs =>
        let st2 := { st with conversations := mapSet st.conversations userPhone conv }
        if env.sendOk userPhone text then
          (storeMessage st2 userPhone "bot" text, evs ++ [Ev.sent userPhone text true])
        else
          (st2, evs ++ [Ev.sent userPhone text false,
                        Ev.sent userPhone genericErrorReply (env.sendOk userPhone genericErrorReply)])

/-- `handleConversation`; fuel 2 suffices because the restart path recurses at
most once (the recursive call finds no conversation and takes the `INITIAL`
branch). -/
def handleConversation (env : Env) (st : St) (userPhone userMessage : String) :
    St × List Ev :=
  handleConvAux 2 env st userPhone userMessage

/-- One parsed inbound webhook message: `message.from` and `message.text?.body`,
either of which may be absent. -/
structure InboundMessage where
  msgFrom : Option String
  textBody : Option String
deriving DecidableEq

/-- The `POST /webhook` handler body for one delivered message.  A missing
`message.from` makes `storeMessage` throw (`undefined.replace`) before any
mutation; the webhook `catch` swallows the error, so nothing happens.  A
missing `message.text.body` is defaulted to the empty string
(`message.text?.body?.trim() || ''`). -/
def handleInbound (env : Env) (st : St) (m : InboundMessage) : St × List Ev :=
  match m.msgFrom with
  | none => (st, [])
  | some userPhone =>
      let messageText := (m.textBody.map jsTrim).getD ""
      let st1 := storeMessage st userPhone "customer" messageText
      if isHandoffMode st1 userPhone then (st1, [])
      else handleConversation env st1 userPhone messageText

/-- JS falsiness of an optional string request field: absent or empty. -/
def jsFalsy (o : Option String) : Bool :=
  match o with
  | none => true
  | some s => s.data.isEmpty

/-- The `POST /api/send-message` handler: validate, clean, send, and only
after a successful send store the sales record, set handoff mode and force the
conversation stage to `HANDOFF` (preserving collected data).  A throwing send
jumps to the `catch`, which answers `success:false` without mutating anything.
Returns (new state, `success` flag of the JSON response, events). -/
def handleAgentOverride (env : Env) (st : St) (phoneNumber message : Option String) :
    St × Bool × List Ev :=
  if jsFalsy phoneNumber || jsFalsy message then (st, false, [])
  else
    let clean := cleanPhone (phoneNumber.getD "")
    let msg := message.getD ""
    if env.sendOk clean msg then
      let st1 := storeMessage st clean "sales" msg
      let st2 := setHandoffMode st1 clean true
      let conversation := (st2.conversations clean).getD ⟨Stage.INITIAL, emptyData⟩
      let st3 := { st2 with conversations := mapSet st2.conversations clean ⟨Stage.HANDOFF, conversation.data⟩ }
      (st3, true, [Ev.sent clean msg true])
    else
      (st, false, [Ev.sent clean msg false])

/-- The `POST /api/resume-bot` handler: a missing `phoneNumber` throws on
`.replace` and answers `success:false`; otherwise clear the handoff flag and
force the conversation stage to `COMPLETED` (default-constructing it in
`COMPLETED` if absent). -/
def resumeBot (st : St) (phoneNumber : Option String) : St × Bool :=
  match phoneNumber with
  | none => (st, false)
  | some pn =>
      let clean := cleanPhone pn
      let st1 := setHandoffMode st clean false
      let conversation := (st1.conversations clean).getD ⟨Stage.COMPLETED, emptyData⟩
      let st2 := { st1 with conversations := mapSet st1.conversations clean ⟨Stage.COMPLETED, conversation.data⟩ }
      (st2, true)

/-- The `GET /api/conversation-history/:phoneNumber` handler: returns the
cleaned number, the message count and the messages, mutating nothing. -/
def getHistory (st : St) (phoneNumber : String) : String × Nat × List MessageRecord :=
  let clean := cleanPhone phoneNumber
  let history := (st.messageHistory clean).getD []
  (clean, history.length, history)

/-- First `sent` event of a trace: the reply the bot decided to send. -/
def replyOf : List Ev → Option String
  | [] => none
  | Ev.sent _ body _ :: _ => some body
  | Ev.createLead _ _ :: rest => replyOf rest

/-- Feed a list of inbound texts from one sender through `handleConversation`,
threading the state and concatenating the traces. -/
def runMsgs (env : Env) (st : St) (p : String) : List String → St × List Ev
  | [] => (st, [])
  | msg :: rest =>
      let r := handleConversation env st p msg
      let r2 := runMsgs env r.1 p rest
      (r2.1, r.2 ++ r2.2)

/-- Environment whose sends all succeed and whose CRM always returns lead id
`"LEAD1"`. -/
def envT : Env := ⟨fun _ _ => true, fun _ => some "LEAD1"⟩

/-- Environment whose sends all fail and whose CRM always fails. -/
def envF : Env := ⟨fun _ _ => false, fun _ => none⟩

/-- Environment whose sends all succeed but whose CRM always fails. -/
def envN : Env := ⟨fun _ _ => true, fun _ => none⟩

/-- A state holding exactly one conversation and nothing else. -/
def stWith (p : String) (c : Conversation) : St :=
  ⟨mapSet (fun _ => none) p c, fun _ => none, fun _ => none⟩

/-- Data collected after the first two dialogue answers. -/
def dFL : ConvData := ⟨some "John", some "Doe", none, none, none, none⟩

/-- A state whose only content is an active handoff flag for digits `p`. -/
def stHand (p : String) : St :=
  ⟨fun _ => none, fun _ => none, mapSet (fun _ => none) (cleanPhone p) true⟩

/-- Data collected after the four answers of the happy-path scenario. -/
def dHappy4 : ConvData :=
  ⟨some "John", some "Doe", some "john@x.com", some "555123", none, none⟩

/-- Full data at the end of the happy-path scenario for sender `p`. -/
def dHappy (p : String) : ConvData :=
  ⟨some "John", some "Doe", some "john@x.com", some "555123", some "need a website", some p⟩

/-- The lead record the happy-path scenario must hand to the CRM. -/
def happyLeadRec (p : String) : LeadRecord := leadRecordOf (dHappy p)

end WB

namespace WB

theorem mapSet_self {V : Type} (m : String → Option V) (k : String) (v : V) :
    mapSet m k v k = some v := by
  simp [mapSet]

theorem mapDel_self {V : Type} (m : String → Option V) (k : String) :
    mapDel m k k = none := by
  simp [mapDel]

theorem storeMessage_conversations (st : St) (p s m : String) :
    (storeMessage st p s m).conversations = st.conversations := rfl

theorem storeMessage_handoffMode (st : St) (p s m : String) :
    (storeMessage st p s m).handoffMode = st.handoffMode := rfl

theorem isHandoffMode_storeMessage (st : St) (p s m q : String) :
    isHandoffMode (storeMessage st p s m) q = isHandoffMode st q := rfl

/-- Evaluation of `handleConversation` when the switch decides a reply and the
send succeeds: commit the conversation, send, store the bot record. -/
theorem handleConversation_reply_ok (env : Env) (st : St) (p msg : String)
    (conv conv' : Conversation) (text : String) (evs : List Ev)
    (hc : st.conversations p = some conv)
    (hstep : switchStep env.crm p msg conv = StepOut.reply conv' text evs)
    (hs : env.sendOk p text = true) :
    handleConversation env st p msg =
      (storeMessage { st with conversations := mapSet st.conversations p conv' } p "bot" text,
       evs ++ [Ev.sent p text true]) := by
  show handleConvAux 2 env st p msg = _
  simp only [handleConvAux, hc, Option.getD_some, hstep, hs, if_true]

/-- Evaluation of `handleConversation` when the switch decides a reply and the
send throws: the conversation is committed, the `catch` attempts the apology
send, and no bot record is stored. -/
theorem handleConversation_reply_fail (env : Env) (st : St) (p msg : String)
    (conv conv' : Conversation) (text : String) (evs : List Ev)
    (hc : st.conversations p = some conv)
    (hstep : switchStep env.crm p msg conv = StepOut.reply conv' text evs)
    (hs : env.sendOk p text = false) :
    handleConversation env st p msg =
      ({ st with conversations := mapSet st.conversations p conv' },
       evs ++ [Ev.sent p text false,
               Ev.sent p genericErrorReply (env.sendOk p genericErrorReply)]) := by
  show handleConvAux 2 env st p msg = _
  simp only [handleConvAux, hc, Option.getD_some, hstep, hs, Bool.false_eq_true, if_false]

/-- Evaluation of `handleConversation` on the `COMPLETED`-restart path: the
conversation entry is deleted and the call re-enters with `'Hi'`, which finds
no conversation and takes the `INITIAL` branch. -/
theorem handleConversation_restart (env : Env) (st : St) (p msg : String)
    (conv : Conversation)
    (hc : st.conversations p = some conv)
    (hstep : switchStep env.crm p msg conv = StepOut.restart) :
    handleConversation env st p msg =
      (let st2 : St := { st with conversations := mapDel st.conversations p }
       let st3 : St := { st2 with conversations := mapSet st2.conversations p ⟨Stage.ASKED_FIRST_NAME, emptyData⟩ }
       if env.sendOk p greetingReply then
         (storeMessage st3 p "bot" greetingReply, [Ev.sent p greetingReply true])
       else
         (st3, [Ev.sent p greetingReply false,
                Ev.sent p genericErrorReply (env.sendOk p genericErrorReply)])) := by
  show handleConvAux 2 env st p msg = _
  simp only [handleConvAux, hc, Option.getD_some, hstep, mapDel_self, Option.getD_none]
  have hini : switchStep env.crm p "Hi" ⟨Stage.INITIAL, emptyData⟩ =
      StepOut.reply ⟨Stage.ASKED_FIRST_NAME, emptyData⟩ greetingReply [] := rfl
  rw [hini]
  by_cases h : env.sendOk p greetingReply
  · simp only [h, if_true, dif_pos, List.nil_append]
  · simp only [h, Bool.false_eq_true, if_false, dif_neg, List.nil_append, not_false_iff]

/-- `replyOf` skips a prefix holding no `sent` event. -/
theorem replyOf_append_none (a b : List Ev) (ha : replyOf a = none) :
    replyOf (a ++ b) = replyOf b := by
  induction a with
  | nil => simp
  | cons x rest ih =>
      cases x with
      | sent d bo ok => simp [replyOf] at ha
      | createLead r o =>
          simp only [replyOf, List.cons_append] at ha ⊢
          exact ih ha

/-- On a decided-reply branch, the updated conversation is committed under the
raw key whether or not the send succeeds. -/
theorem handleConversation_commit (env : Env) (st : St) (p msg : String)
    (conv conv' : Conversation) (text : String) (r : List Ev)
    (hc : st.conversations p = some conv)
    (hstep : switchStep env.crm p msg conv = StepOut.reply conv' text r) :
    (handleConversation env st p msg).1.conversations p = some conv' := by
  cases hs : env.sendOk p text
  · rw [handleConversation_reply_fail env st p msg conv conv' text r hc hstep hs]
    exact mapSet_self ..
  · rw [handleConversation_reply_ok env st p msg conv conv' text r hc hstep hs]
    exact mapSet_self ..

/-- On a decided-reply branch whose CRM events hold no `sent` event, the first
sent message of the trace is the decided reply, whether or not the send
succeeds. -/
theorem handleConversation_replyOf (env : Env) (st : St) (p msg : String)
    (conv conv' : Conversation) (text : String) (r : List Ev)
    (hc : st.conversations p = some conv)
    (hstep : switchStep env.crm p msg conv = StepOut.reply conv' text r)
    (hr : replyOf r = none) :
    replyOf (handleConversation env st p msg).2 = some text := by
  cases hs : env.sendOk p text
  · rw [handleConversation_reply_fail env st p msg conv conv' text r hc hstep hs]
    rw [replyOf_append_none _ _ hr]
    rfl
  · rw [handleConversation_reply_ok env st p msg conv conv' text r hc hstep hs]
    rw [replyOf_append_none _ _ hr]
    rfl

end WB

namespace WB

/-- C1 counterexample: the input `"a@b"` does not lack both `'@'` and `'.'`
(it contains `'@'`), so the claim says it must be stored as `data.email` and
the stage advance to `ASKED_PHONE`; the code instead rejects it, leaving the
stage at `ASKED_EMAIL`, the data untouched, and replying the validation
error. -/
theorem C1_counterexample :
    (jsIncludes "a@b" '@' = true) ∧
    (handleConversation envT (stWith "5551234" ⟨Stage.ASKED_EMAIL, dFL⟩) "5551234" "a@b").1.conversations "5551234"
      = some ⟨Stage.ASKED_EMAIL, dFL⟩ ∧
    replyOf (handleConversation envT (stWith "5551234" ⟨Stage.ASKED_EMAIL, dFL⟩) "5551234" "a@b").2
      = some emailErrorReply := by
  refine ⟨rfl, ?_, ?_⟩ <;> decide

/-- C1 (amended): in stage `ASKED_EMAIL` the transition rejects the input
(validation-error reply, stage stays `ASKED_EMAIL`, data unchanged) exactly
when the text lacks `'@'` OR lacks `'.'`; when the text contains both, it is
stored as `data.email` and the stage advances to `ASKED_PHONE` with the
ask-for-phone reply. -/
theorem C1_email_validation (env : Env) (st : St) (p msg : String) (d : ConvData)
    (hc : st.conversations p = some ⟨Stage.ASKED_EMAIL, d⟩) :
    ((jsIncludes msg '@' && jsIncludes msg '.') = false →
        (handleConversation env st p msg).1.conversations p = some ⟨Stage.ASKED_EMAIL, d⟩ ∧
        replyOf (handleConversation env st p msg).2 = some emailErrorReply) ∧
    ((jsIncludes msg '@' && jsIncludes msg '.') = true →
        (handleConversation env st p msg).1.conversations p
          = some ⟨Stage.ASKED_PHONE, { d with email := some msg }⟩ ∧
        replyOf (handleConversation env st p msg).2 = some askPhoneReply) := by
  constructor
  · intro h
    have hstep : switchStep env.crm p msg ⟨Stage.ASKED_EMAIL, d⟩
        = StepOut.reply ⟨Stage.ASKED_EMAIL, d⟩ emailErrorReply [] := by
      unfold switchStep
      cases ha : jsIncludes msg '@' <;> cases hb : jsIncludes msg '.' <;> simp_all
    exact ⟨handleConversation_commit env st p msg _ _ _ _ hc hstep,
           handleConversation_replyOf env st p msg _ _ _ _ hc hstep rfl⟩
  · intro h
    have hstep : switchStep env.crm p msg ⟨Stage.ASKED_EMAIL, d⟩
        = StepOut.reply ⟨Stage.ASKED_PHONE, { d with email := some msg }⟩ askPhoneReply [] := by
      unfold switchStep
      cases ha : jsIncludes msg '@' <;> cases hb : jsIncludes msg '.' <;> simp_all
    exact ⟨handleConversation_commit env st p msg _ _ _ _ hc hstep,
           handleConversation_replyOf env st p msg _ _ _ _ hc hstep rfl⟩

/-- C1 witness: the amended theorem applied at a concrete state and the
accepting input `"john@x.com"`. -/
theorem C1_witness :
    (handleConversation envT (stWith "5551234" ⟨Stage.ASKED_EMAIL, dFL⟩) "5551234" "john@x.com").1.conversations "5551234"
      = some ⟨Stage.ASKED_PHONE, { dFL with email := some "john@x.com" }⟩ ∧
    replyOf (handleConversation envT (stWith "5551234" ⟨Stage.ASKED_EMAIL, dFL⟩) "5551234" "john@x.com").2
      = some askPhoneReply := by
  exact (C1_email_validation envT (stWith "5551234" ⟨Stage.ASKED_EMAIL, dFL⟩) "5551234"
    "john@x.com" dFL (by decide)).2 (by decide)

/-- Digit filtering is idempotent. -/
theorem cleanPhone_idem (x : String) : cleanPhone (cleanPhone x) = cleanPhone x := by
  unfold cleanPhone
  simp [List.filter_filter]

/-- C5: sender-identity normalization (digit filtering) is idempotent, and the
two sample representations normalize to the same digit string. -/
theorem C5_normalize_idempotent :
    (∀ x : String, cleanPhone (cleanPhone x) = cleanPhone x) ∧
    cleanPhone "+1 (555) 123-4567" = cleanPhone "15551234567" := by
  exact ⟨cleanPhone_idem, by decide⟩

/-- C2 counterexample: a fresh sender sends `"Hi"` and the outbound send
fails.  The stage transition `INITIAL → ASKED_FIRST_NAME` was committed, but
the bot reply record was NOT appended to History (only the customer record is
there): the code appends the bot record after the send, so a send failure
skips it, contradicting the claimed commit order. -/
theorem C2_counterexample :
    (handleInbound envF emptySt ⟨some "777", some "Hi"⟩).1.conversations "777"
      = some ⟨Stage.ASKED_FIRST_NAME, emptyData⟩ ∧
    (handleInbound envF emptySt ⟨some "777", some "Hi"⟩).1.messageHistory "777"
      = some [⟨"customer", "Hi"⟩] ∧
    (handleInbound envF emptySt ⟨some "777", some "Hi"⟩).2
      = [Ev.sent "777" greetingReply false, Ev.sent "777" genericErrorReply false] := by
  refine ⟨?_, ?_, ?_⟩ <;> decide

/-- C2 (amended): the Conversation state is committed before the outbound
send is attempted, but the bot reply is appended to History only after a
successful send; when the send fails, the committed stage transition remains
in place and no bot-history record is appended (History is left exactly as it
was). -/
theorem C2_commit_before_send (env : Env) (st : St) (p msg : String)
    (conv conv' : Conversation) (text : String) (r : List Ev)
    (hc : st.conversations p = some conv)
    (hstep : switchStep env.crm p msg conv = StepOut.reply conv' text r)
    (hsend : env.sendOk p text = false) :
    (handleConversation env st p msg).1.conversations p = some conv' ∧
    (handleConversation env st p msg).1.messageHistory = st.messageHistory := by
  rw [handleConversation_reply_fail env st p msg conv conv' text r hc hstep hsend]
  exact ⟨mapSet_self .., rfl⟩

/-- C2 witness: the amended theorem applied at a concrete state (a rejected
email input whose reply send fails). -/
theorem C2_witness :
    (handleConversation envF (stWith "5551234" ⟨Stage.ASKED_EMAIL, dFL⟩) "5551234" "x").1.conversations "5551234"
      = some ⟨Stage.ASKED_EMAIL, dFL⟩ ∧
    (handleConversation envF (stWith "5551234" ⟨Stage.ASKED_EMAIL, dFL⟩) "5551234" "x").1.messageHistory
      = (stWith "5551234" ⟨Stage.ASKED_EMAIL, dFL⟩).messageHistory := by
  exact C2_commit_before_send envF (stWith "5551234" ⟨Stage.ASKED_EMAIL, dFL⟩) "5551234" "x"
    ⟨Stage.ASKED_EMAIL, dFL⟩ ⟨Stage.ASKED_EMAIL, dFL⟩ emailErrorReply []
    (by decide) (by decide) rfl

/-- C3: once the Handoff flag is true for a sender, `handleInbound` for that
sender leaves every Conversation entry unchanged, leaves the Handoff registry
unchanged (so the flag stays true until `resumeBot` clears it), produces no
events (no reply sent, no bot record), and still appends the inbound customer
message to that sender's History. -/
theorem C3_handoff_exclusivity (env : Env) (st : St) (m : InboundMessage) (p : String)
    (hfrom : m.msgFrom = some p)
    (hh : isHandoffMode st p = true) :
    (handleInbound env st m).1.conversations = st.conversations ∧
    (handleInbound env st m).1.handoffMode = st.handoffMode ∧
    (handleInbound env st m).2 = [] ∧
    (handleInbound env st m).1.messageHistory (cleanPhone p)
      = some (((st.messageHistory (cleanPhone p)).getD [])
          ++ [⟨"customer", (m.textBody.map jsTrim).getD ""⟩]) := by
  unfold handleInbound
  rw [hfrom]
  simp only [isHandoffMode_storeMessage, hh, if_true]
  simp [storeMessage, mapSet]

/-- C3 witness: the theorem applied at a concrete handed-off state. -/
theorem C3_witness :
    (handleInbound envT (stHand "777") ⟨some "777", some "hello"⟩).1.conversations
      = (stHand "777").conversations ∧
    (handleInbound envT (stHand "777") ⟨some "777", some "hello"⟩).1.handoffMode
      = (stHand "777").handoffMode ∧
    (handleInbound envT (stHand "777") ⟨some "777", some "hello"⟩).2 = [] ∧
    (handleInbound envT (stHand "777") ⟨some "777", some "hello"⟩).1.messageHistory (cleanPhone "777")
      = some ((((stHand "777").messageHistory (cleanPhone "777")).getD [])
          ++ [⟨"customer", ((some "hello").map jsTrim).getD ""⟩]) := by
  exact C3_handoff_exclusivity envT (stHand "777") ⟨some "777", some "hello"⟩ "777" rfl (by decide)

/-- C4 counterexample: `"+91555"` and `"91555"` strip to the same digit
string, yet after one inbound event from `"+91555"` the Conversation entry
lives under the RAW key `"+91555"`; there is no entry under the canonical key
`"91555"`, so the two representations do not address the same Conversation
entry in `handleInbound`. -/
theorem C4_counterexample :
    cleanPhone "+91555" = cleanPhone "91555" ∧
    (handleInbound envT emptySt ⟨some "+91555", some "Hi"⟩).1.conversations "+91555"
      = some ⟨Stage.ASKED_FIRST_NAME, emptyData⟩ ∧
    (handleInbound envT emptySt ⟨some "+91555", some "Hi"⟩).1.conversations "91555" = none := by
  refine ⟨rfl, ?_, ?_⟩ <;> decide

/-- C4 (amended): the History ledger, the Handoff registry and the
history/override/resume operations all key by the canonical digits-only
identity — each is invariant under pre-normalizing its phone argument (for
the agent override, once the raw-input presence check is passed, i.e. the
cleaned number is nonempty) — but `handleInbound` keys the Conversation store
by the raw sender string, as the counterexample shows. -/
theorem C4_store_ops_normalize :
    (∀ st p s m, storeMessage st p s m = storeMessage st (cleanPhone p) s m) ∧
    (∀ st p, isHandoffMode st p = isHandoffMode st (cleanPhone p)) ∧
    (∀ st p b, setHandoffMode st p b = setHandoffMode st (cleanPhone p) b) ∧
    (∀ st p, getHistory st p = getHistory st (cleanPhone p)) ∧
    (∀ st pn, resumeBot st (some pn) = resumeBot st (some (cleanPhone pn))) ∧
    (∀ env st pn msg, (cleanPhone pn).data.isEmpty = false →
        handleAgentOverride env st (some pn) msg
          = handleAgentOverride env st (some (cleanPhone pn)) msg) := by
  refine ⟨?_, ?_, ?_, ?_, ?_, ?_⟩
  · intro st p s m
    unfold storeMessage
    rw [cleanPhone_idem]
  · intro st p
    unfold isHandoffMode
    rw [cleanPhone_idem]
  · intro st p b
    unfold setHandoffMode
    rw [cleanPhone_idem]
  · intro st p
    unfold getHistory
    rw [cleanPhone_idem]
  · intro st pn
    simp only [resumeBot, cleanPhone_idem]
  · intro env st pn msg h
    have hpn : pn.data.isEmpty = false := by
      cases hd : pn.data with
      | nil =>
          exfalso
          have hmk : cleanPhone pn = String.mk [] := by
            unfold cleanPhone
            rw [hd]
            rfl
          rw [hmk] at h
          simp [String.mk] at h
      | cons a l => rfl
    unfold handleAgentOverride
    simp only [jsFalsy, hpn, h, Bool.false_or, Option.getD_some]
    rw [cleanPhone_idem]

/-- C4 witness: both the History append and the agent override address the
same entries for the two representations of one number. -/
theorem C4_witness :
    storeMessage emptySt "+91555" "customer" "x" = storeMessage emptySt "91555" "customer" "x" ∧
    handleAgentOverride envT emptySt (some "+91555") (some "hello")
      = handleAgentOverride envT emptySt (some "91555") (some "hello") := by
  constructor
  · have h := C4_store_ops_normalize.1 emptySt "+91555" "customer" "x"
    rw [show cleanPhone "+91555" = "91555" from rfl] at h
    exact h
  · have h := C4_store_ops_normalize.2.2.2.2.2 envT emptySt "+91555" (some "hello") (by decide)
    rw [show cleanPhone "+91555" = "91555" from rfl] at h
    exact h

/-- Unfolding of `runMsgs` through one successfully-sent dialogue step. -/
theorem runMsgs_cons_ok (env : Env) (st : St) (p msg : String) (rest : List String)
    (conv conv' : Conversation) (text : String) (r : List Ev)
    (hc : st.conversations p = some conv)
    (hstep : switchStep env.crm p msg conv = StepOut.reply conv' text r)
    (hs : env.sendOk p text = true) :
    runMsgs env st p (msg :: rest) =
      ((runMsgs env (storeMessage { st with conversations := mapSet st.conversations p conv' } p "bot" text) p rest).1,
       (r ++ [Ev.sent p text true])
         ++ (runMsgs env (storeMessage { st with conversations := mapSet st.conversations p conv' } p "bot" text) p rest).2) := by
  simp only [runMsgs]
  rw [handleConversation_reply_ok env st p msg conv conv' text r hc hstep hs]

/-- After a committed dialogue step, the sender's conversation entry holds the
committed conversation. -/
theorem commit_conversations (st : St) (p t : String) (c : Conversation) :
    (storeMessage { st with conversations := mapSet st.conversations p c } p "bot" t).conversations p
      = some c := by
  show mapSet st.conversations p c p = some c
  exact mapSet_self ..

/-- C6 counterexample: feeding the five scenario inputs to a conversation that
is at stage `INITIAL` never calls `createLead` — the `INITIAL` step consumes
the first input (`"John"`) for its greeting, every answer lands one stage
late, `"555123"` is rejected by the email check, and the run ends at
`ASKED_EMAIL` with `firstName = "Doe"`, not at `COMPLETED`. -/
theorem C6_counterexample :
    (runMsgs envT (stWith "321" ⟨Stage.INITIAL, emptyData⟩) "321"
        ["John", "Doe", "john@x.com", "555123", "need a website"]).1.conversations "321"
      = some ⟨Stage.ASKED_EMAIL, ⟨some "Doe", some "john@x.com", none, none, none, none⟩⟩ ∧
    (runMsgs envT (stWith "321" ⟨Stage.INITIAL, emptyData⟩) "321"
        ["John", "Doe", "john@x.com", "555123", "need a website"]).2
      = [Ev.sent "321" greetingReply true,
         Ev.sent "321" (askLastNameReply "Doe") true,
         Ev.sent "321" askEmailReply true,
         Ev.sent "321" emailErrorReply true,
         Ev.sent "321" emailErrorReply true] := by
  refine ⟨?_, ?_⟩ <;> decide

/-- C6 (amended): starting from a conversation at `ASKED_FIRST_NAME` (the
stage reached right after the `INITIAL` greeting), feeding `"John"`, `"Doe"`,
`"john@x.com"`, `"555123"`, `"need a website"` in order makes the fifth step
call `createLead` with firstName `"John"`, lastName `"Doe"`, company
`"John Doe"` (derived from first and last name), email `"john@x.com"`, phone
`"555123"`, requirement/description `"need a website"`, and the sender
identity as WhatsApp number; on CRM success the stage becomes `COMPLETED` and
the reply ends with the returned lead id. -/
theorem C6_happy_path (env : Env) (st : St) (p leadId : String)
    (hc : st.conversations p = some ⟨Stage.ASKED_FIRST_NAME, emptyData⟩)
    (hsend : ∀ a b, env.sendOk a b = true)
    (hcrm : env.crm (happyLeadRec p) = some leadId) :
    (runMsgs env st p ["John", "Doe", "john@x.com", "555123", "need a website"]).1.conversations p
      = some ⟨Stage.COMPLETED, dHappy p⟩ ∧
    (runMsgs env st p ["John", "Doe", "john@x.com", "555123", "need a website"]).2
      = [Ev.sent p (askLastNameReply "John") true,
         Ev.sent p askEmailReply true,
         Ev.sent p askPhoneReply true,
         Ev.sent p askRequirementReply true,
         Ev.createLead (happyLeadRec p) (some leadId),
         Ev.sent p (leadSuccessReply (some "John") leadId) true] ∧
    (∃ pre, leadSuccessReply (some "John") leadId = pre ++ leadId) := by
  have hstep5 : switchStep env.crm p "need a website" ⟨Stage.ASKED_REQUIREMENT, dHappy4⟩
      = StepOut.reply ⟨Stage.COMPLETED, dHappy p⟩ (leadSuccessReply (some "John") leadId)
          [Ev.createLead (happyLeadRec p) (some leadId)] := by
    have h1 : switchStep env.crm p "need a website" ⟨Stage.ASKED_REQUIREMENT, dHappy4⟩
        = match env.crm (happyLeadRec p) with
          | some i => StepOut.reply ⟨Stage.COMPLETED, dHappy p⟩ (leadSuccessReply (some "John") i)
              [Ev.createLead (happyLeadRec p) (some i)]
          | none => StepOut.reply ⟨Stage.ASKED_REQUIREMENT, dHappy p⟩ leadFailureReply
              [Ev.createLead (happyLeadRec p) none] := rfl
    rw [h1, hcrm]
  rw [runMsgs_cons_ok env st p "John" _ ⟨Stage.ASKED_FIRST_NAME, emptyData⟩
      ⟨Stage.ASKED_LAST_NAME, ⟨some "John", none, none, none, none, none⟩⟩
      (askLastNameReply "John") [] hc rfl (hsend p _)]
  rw [runMsgs_cons_ok env _ p "Doe" _ ⟨Stage.ASKED_LAST_NAME, ⟨some "John", none, none, none, none, none⟩⟩
      ⟨Stage.ASKED_EMAIL, ⟨some "John", some "Doe", none, none, none, none⟩⟩
      askEmailReply [] (commit_conversations ..) rfl (hsend p _)]
  rw [runMsgs_cons_ok env _ p "john@x.com" _ ⟨Stage.ASKED_EMAIL, ⟨some "John", some "Doe", none, none, none, none⟩⟩
      ⟨Stage.ASKED_PHONE, ⟨some "John", some "Doe", some "john@x.com", none, none, none⟩⟩
      askPhoneReply [] (commit_conversations ..) rfl (hsend p _)]
  rw [runMsgs_cons_ok env _ p "555123" _ ⟨Stage.ASKED_PHONE, ⟨some "John", some "Doe", some "john@x.com", none, none, none⟩⟩
      ⟨Stage.ASKED_REQUIREMENT, dHappy4⟩
      askRequirementReply [] (commit_conversations ..) rfl (hsend p _)]
  rw [runMsgs_cons_ok env _ p "need a website" [] ⟨Stage.ASKED_REQUIREMENT, dHappy4⟩
      ⟨Stage.COMPLETED, dHappy p⟩
      (leadSuccessReply (some "John") leadId) [Ev.createLead (happyLeadRec p) (some leadId)]
      (commit_conversations ..) hstep5 (hsend p _)]
  simp only [runMsgs]
  refine ⟨commit_conversations .., by simp, ?_⟩
  exact ⟨"✅ Thank you, " ++ jsStr (some "John")
    ++ "!\n\nWe\x27ve received your inquiry. Our sales team will contact you shortly on WhatsApp.\n\n📋 Your reference number: ", rfl⟩

/-- C6 witness: the amended theorem applied at a concrete state, environment
and lead id. -/
theorem C6_witness :
    (runMsgs envT (stWith "321" ⟨Stage.ASKED_FIRST_NAME, emptyData⟩) "321"
        ["John", "Doe", "john@x.com", "555123", "need a website"]).1.conversations "321"
      = some ⟨Stage.COMPLETED, dHappy "321"⟩ ∧
    (runMsgs envT (stWith "321" ⟨Stage.ASKED_FIRST_NAME, emptyData⟩) "321"
        ["John", "Doe", "john@x.com", "555123", "need a website"]).2
      = [Ev.sent "321" (askLastNameReply "John") true,
         Ev.sent "321" askEmailReply true,
         Ev.sent "321" askPhoneReply true,
         Ev.sent "321" askRequirementReply true,
         Ev.createLead (happyLeadRec "321") (some "LEAD1"),
         Ev.sent "321" (leadSuccessReply (some "John") "LEAD1") true] ∧
    (∃ pre, leadSuccessReply (some "John") "LEAD1" = pre ++ "LEAD1") := by
  exact C6_happy_path envT (stWith "321" ⟨Stage.ASKED_FIRST_NAME, emptyData⟩) "321" "LEAD1"
    (by decide) (fun a b => rfl) rfl

/-- C7: when the CRM call fails at `ASKED_REQUIREMENT`, the stage stays
`ASKED_REQUIREMENT` (with the requirement and WhatsApp number recorded in the
data), the reply is the failure message, the trace shows the attempted
`createLead`, and a second `handleInbound` step with the same text attempts
`createLead` with the same record again. -/
theorem C7_crm_failure_retry (env : Env) (st : St) (p msg : String) (d : ConvData)
    (hc : st.conversations p = some ⟨Stage.ASKED_REQUIREMENT, d⟩)
    (hcrm : env.crm (leadRecordOf { d with requirement := some msg, whatsappNumber := some p }) = none) :
    (handleConversation env st p msg).1.conversations p
      = some ⟨Stage.ASKED_REQUIREMENT, { d with requirement := some msg, whatsappNumber := some p }⟩ ∧
    replyOf (handleConversation env st p msg).2 = some leadFailureReply ∧
    Ev.createLead (leadRecordOf { d with requirement := some msg, whatsappNumber := some p }) none
      ∈ (handleConversation env st p msg).2 ∧
    Ev.createLead (leadRecordOf { d with requirement := some msg, whatsappNumber := some p }) none
      ∈ (handleConversation env (handleConversation env st p msg).1 p msg).2 := by
  have hstep : switchStep env.crm p msg ⟨Stage.ASKED_REQUIREMENT, d⟩
      = StepOut.reply ⟨Stage.ASKED_REQUIREMENT, { d with requirement := some msg, whatsappNumber := some p }⟩
          leadFailureReply
          [Ev.createLead (leadRecordOf { d with requirement := some msg, whatsappNumber := some p }) none] := by
    have h1 : switchStep env.crm p msg ⟨Stage.ASKED_REQUIREMENT, d⟩
        = match env.crm (leadRecordOf { d with requirement := some msg, whatsappNumber := some p }) with
          | some i => StepOut.reply
              ⟨Stage.COMPLETED, { d with requirement := some msg, whatsappNumber := some p }⟩
              (leadSuccessReply d.firstName i)
              [Ev.createLead (leadRecordOf { d with requirement := some msg, whatsappNumber := some p }) (some i)]
          | none => StepOut.reply
              ⟨Stage.ASKED_REQUIREMENT, { d with requirement := some msg, whatsappNumber := some p }⟩
              leadFailureReply
              [Ev.createLead (leadRecordOf { d with requirement := some msg, whatsappNumber := some p }) none] := rfl
    rw [h1, hcrm]
  have hcommit := handleConversation_commit env st p msg _ _ _ _ hc hstep
  have hstep2 : switchStep env.crm p msg
      ⟨Stage.ASKED_REQUIREMENT, { d with requirement := some msg, whatsappNumber := some p }⟩
      = StepOut.reply ⟨Stage.ASKED_REQUIREMENT, { d with requirement := some msg, whatsappNumber := some p }⟩
          leadFailureReply
          [Ev.createLead (leadRecordOf { d with requirement := some msg, whatsappNumber := some p }) none] := by
    have h1 : switchStep env.crm p msg
        ⟨Stage.ASKED_REQUIREMENT, { d with requirement := some msg, whatsappNumber := some p }⟩
        = match env.crm (leadRecordOf { d with requirement := some msg, whatsappNumber := some p }) with
          | some i => StepOut.reply
              ⟨Stage.COMPLETED, { d with requirement := some msg, whatsappNumber := some p }⟩
              (leadSuccessReply d.firstName i)
              [Ev.createLead (leadRecordOf { d with requirement := some msg, whatsappNumber := some p }) (some i)]
          | none => StepOut.reply
              ⟨Stage.ASKED_REQUIREMENT, { d with requirement := some msg, whatsappNumber := some p }⟩
              leadFailureReply
              [Ev.createLead (leadRecordOf { d with requirement := some msg, whatsappNumber := some p }) none] := rfl
    rw [h1, hcrm]
  refine ⟨hcommit, handleConversation_replyOf env st p msg _ _ _ _ hc hstep rfl, ?_, ?_⟩
  · cases hs : env.sendOk p leadFailureReply
    · rw [handleConversation_reply_fail env st p msg _ _ _ _ hc hstep hs]
      simp
    · rw [handleConversation_reply_ok env st p msg _ _ _ _ hc hstep hs]
      simp
  · cases hs : env.sendOk p leadFailureReply
    · rw [handleConversation_reply_fail env (handleConversation env st p msg).1 p msg _ _ _ _ hcommit hstep2 hs]
      simp
    · rw [handleConversation_reply_ok env (handleConversation env st p msg).1 p msg _ _ _ _ hcommit hstep2 hs]
      simp

/-- C7 witness: the theorem applied at a concrete state with a failing CRM. -/
theorem C7_witness :
    (handleConversation envN (stWith "5551234" ⟨Stage.ASKED_REQUIREMENT, dHappy4⟩) "5551234" "need a website").1.conversations "5551234"
      = some ⟨Stage.ASKED_REQUIREMENT, { dHappy4 with requirement := some "need a website", whatsappNumber := some "5551234" }⟩ ∧
    replyOf (handleConversation envN (stWith "5551234" ⟨Stage.ASKED_REQUIREMENT, dHappy4⟩) "5551234" "need a website").2
      = some leadFailureReply ∧
    Ev.createLead (leadRecordOf { dHappy4 with requirement := some "need a website", whatsappNumber := some "5551234" }) none
      ∈ (handleConversation envN (stWith "5551234" ⟨Stage.ASKED_REQUIREMENT, dHappy4⟩) "5551234" "need a website").2 ∧
    Ev.createLead (leadRecordOf { dHappy4 with requirement := some "need a website", whatsappNumber := some "5551234" }) none
      ∈ (handleConversation envN
          (handleConversation envN (stWith "5551234" ⟨Stage.ASKED_REQUIREMENT, dHappy4⟩) "5551234" "need a website").1
          "5551234" "need a website").2 := by
  exact C7_crm_failure_retry envN (stWith "5551234" ⟨Stage.ASKED_REQUIREMENT, dHappy4⟩)
    "5551234" "need a website" dHappy4 (by decide) rfl

/-- C8: at stage `COMPLETED`, an input whose lowercase form is `"restart"` or
`"start"` deletes the conversation and re-enters the dialogue, landing exactly
on `ASKED_FIRST_NAME` with fresh empty data and the very greeting reply the
`INITIAL` stage produces; every other input leaves the conversation at
`COMPLETED` (same data) with the already-submitted notice. -/
theorem C8_completed_restart (env : Env) (st : St) (p msg : String) (d : ConvData)
    (hc : st.conversations p = some ⟨Stage.COMPLETED, d⟩) :
    ((jsToLower msg = "restart" ∨ jsToLower msg = "start") →
        (handleConversation env st p msg).1.conversations p
          = some ⟨Stage.ASKED_FIRST_NAME, emptyData⟩ ∧
        replyOf (handleConversation env st p msg).2 = some greetingReply) ∧
    (¬(jsToLower msg = "restart" ∨ jsToLower msg = "start") →
        (handleConversation env st p msg).1.conversations p = some ⟨Stage.COMPLETED, d⟩ ∧
        replyOf (handleConversation env st p msg).2 = some alreadySubmittedReply) := by
  have h1 : switchStep env.crm p msg ⟨Stage.COMPLETED, d⟩
      = (if jsToLower msg = "restart" ∨ jsToLower msg = "start" then StepOut.restart
         else StepOut.reply ⟨Stage.COMPLETED, d⟩ alreadySubmittedReply []) := rfl
  constructor
  · intro h
    have hstep : switchStep env.crm p msg ⟨Stage.COMPLETED, d⟩ = StepOut.restart := by
      rw [h1, if_pos h]
    rw [handleConversation_restart env st p msg _ hc hstep]
    cases hs : env.sendOk p greetingReply
    · simp only [hs, Bool.false_eq_true, if_false]
      refine ⟨?_, rfl⟩
      exact mapSet_self ..
    · simp only [hs, if_true]
      refine ⟨?_, rfl⟩
      exact mapSet_self ..
  · intro h
    have hstep : switchStep env.crm p msg ⟨Stage.COMPLETED, d⟩
        = StepOut.reply ⟨Stage.COMPLETED, d⟩ alreadySubmittedReply [] := by
      rw [h1, if_neg h]
    exact ⟨handleConversation_commit env st p msg _ _ _ _ hc hstep,
           handleConversation_replyOf env st p msg _ _ _ _ hc hstep rfl⟩

/-- C8 witness: the theorem applied at a concrete completed conversation, for
a mixed-case restart keyword and for an ordinary message. -/
theorem C8_witness :
    ((handleConversation envT (stWith "777" ⟨Stage.COMPLETED, dFL⟩) "777" "ReStArT").1.conversations "777"
        = some ⟨Stage.ASKED_FIRST_NAME, emptyData⟩ ∧
      replyOf (handleConversation envT (stWith "777" ⟨Stage.COMPLETED, dFL⟩) "777" "ReStArT").2
        = some greetingReply) ∧
    ((handleConversation envT (stWith "777" ⟨Stage.COMPLETED, dFL⟩) "777" "hello").1.conversations "777"
        = some ⟨Stage.COMPLETED, dFL⟩ ∧
      replyOf (handleConversation envT (stWith "777" ⟨Stage.COMPLETED, dFL⟩) "777" "hello").2
        = some alreadySubmittedReply) := by
  constructor
  · exact (C8_completed_restart envT (stWith "777" ⟨Stage.COMPLETED, dFL⟩) "777" "ReStArT" dFL
      (by decide)).1 (by decide)
  · exact (C8_completed_restart envT (stWith "777" ⟨Stage.COMPLETED, dFL⟩) "777" "hello" dFL
      (by decide)).2 (by decide)

/-- C9 counterexample: an inbound event with a sender but no message text is
NOT dropped: the customer record (with empty text) is appended to History and
the dialogue proceeds, replying the greeting. -/
theorem C9_counterexample :
    (handleInbound envT emptySt ⟨some "42", none⟩).1.messageHistory "42"
      = some [⟨"customer", ""⟩, ⟨"bot", greetingReply⟩] ∧
    (handleInbound envT emptySt ⟨some "42", none⟩).2 = [Ev.sent "42" greetingReply true] := by
  refine ⟨?_, ?_⟩ <;> decide

/-- C9 (amended): an inbound event with a missing sender is dropped — no store
is created or mutated and nothing is replied (the thrown lookup error is
swallowed) — but an event with a missing message text is processed exactly
like the empty-string message: the customer record is appended and the
dialogue proceeds. -/
theorem C9_malformed_inbound :
    (∀ (env : Env) (st : St) (m : InboundMessage), m.msgFrom = none →
        handleInbound env st m = (st, [])) ∧
    (∀ (env : Env) (st : St) (f : String),
        handleInbound env st ⟨some f, none⟩ = handleInbound env st ⟨some f, some ""⟩) := by
  constructor
  · intro env st m h
    simp only [handleInbound, h]
  · intro env st f
    rfl

/-- C9 witness: the amended theorem applied to a concrete sender-less event. -/
theorem C9_witness :
    handleInbound envT emptySt ⟨none, some "hello"⟩ = (emptySt, []) := by
  exact C9_malformed_inbound.1 envT emptySt ⟨none, some "hello"⟩ rfl

/-- C10: in the agent-override endpoint the outbound send is attempted before
any store mutation, so when the send fails the state is returned untouched —
History, Handoff flag and Conversation all unchanged — with a `success:false`
result. -/
theorem C10_override_send_failure (env : Env) (st : St) (pn msg : String)
    (hpn : pn.data.isEmpty = false) (hmsg : msg.data.isEmpty = false)
    (hsend : env.sendOk (cleanPhone pn) msg = false) :
    handleAgentOverride env st (some pn) (some msg)
      = (st, false, [Ev.sent (cleanPhone pn) msg false]) := by
  unfold handleAgentOverride
  simp only [jsFalsy, hpn, hmsg, Bool.or_self, Bool.false_eq_true, if_false,
    Option.getD_some, hsend]

/-- C10 witness: the theorem applied at a concrete state and a failing send. -/
theorem C10_witness :
    handleAgentOverride envF (stWith "91555" ⟨Stage.ASKED_EMAIL, dFL⟩) (some "91555") (some "hi")
      = (stWith "91555" ⟨Stage.ASKED_EMAIL, dFL⟩, false, [Ev.sent (cleanPhone "91555") "hi" false]) := by
  exact C10_override_send_failure envF (stWith "91555" ⟨Stage.ASKED_EMAIL, dFL⟩) "91555" "hi"
    rfl rfl rfl

end WB
